import Mathlib

/-!
Verification of the dependency-audit tool `src/dep-audit.js` against its
natural-language specification.  The JavaScript source is shallowly embedded:
JSON scalar values become an inductive `JVal`, JavaScript objects become
association lists in key-insertion order, the `try/catch`-guarded I/O calls
become `Option`-valued inputs, and the statements that can throw a
`TypeError` (property access on `undefined`) return `Except JsError`.
-/

namespace DepAudit

/-- A JSON scalar value as it can appear as a dependency's declared version
after `fs.readJson` parses `package.json`.  JavaScript numbers are modelled
as integers (the manifests at issue hold no fractional version numbers). -/
inductive JVal where
  | jnull
  | jbool (b : Bool)
  | jnum (n : Int)
  | jstr (s : String)
  deriving Repr, DecidableEq

/-- The JavaScript `ToPropertyKey` string coercion applied when a value is
used as an object index, as in `response.data.versions[version]`. -/
def jsToKeyString : JVal → String
  | .jnull => "null"
  | .jbool true => "true"
  | .jbool false => "false"
  | .jnum n => toString n
  | .jstr s => s

/-- A `dependencies` / `devDependencies` field of the parsed manifest:
either an object (a list of key/value entries in declaration order) or a
non-object value (including an absent field, modelled as `prim .jnull`). -/
inductive DepsGroup where
  | obj (entries : List (String × JVal))
  | prim (v : JVal)
  deriving Repr, DecidableEq

/-- Entries contributed by one group under JavaScript object spread
`{...group}`: an object contributes its entries, a string contributes its
characters under index keys, and other primitives contribute nothing. -/
def spreadEntries : DepsGroup → List (String × JVal)
  | .obj es => es
  | .prim (.jstr s) => s.data.enum.map fun p => (toString p.1, JVal.jstr (String.mk [p.2]))
  | .prim _ => []

/-- First-match association-list lookup, the JavaScript semantics of reading
a property of an object whose entries are stored in insertion order. -/
def lookupEntry (m : List (String × α)) (k : String) : Option α :=
  (m.find? fun p => p.1 = k).map Prod.snd

/-- Assigning `m[k] = v` on a JavaScript object: an existing key keeps its
position and takes the new value, a new key is appended at the end. -/
def upsert (m : List (String × JVal)) (k : String) (v : JVal) : List (String × JVal) :=
  if m.any fun p => p.1 = k then
    m.map fun p => if p.1 = k then (k, v) else p
  else
    m ++ [(k, v)]

/-- Building a JavaScript object from a stream of spread entries
(`{...a, ...b}`): later writes to the same key win while the key keeps its
first position. -/
def objFromEntries (es : List (String × JVal)) : List (String × JVal) :=
  es.foldl (fun acc p => upsert acc p.1 p.2) []

/-- Line 55: `const dependencies = { ...pkg.dependencies, ...pkg.devDependencies };` -/
def mergedDependencies (deps devDeps : DepsGroup) : List (String × JVal) :=
  objFromEntries (spreadEntries deps ++ spreadEntries devDeps)

/-- A successful registry response body: `dist-tags.latest` and the
per-version map, each version entry carrying its optional `license` field
(`none` when the entry has no license field). A response whose `versions`
member is absent is modelled with `versions = none`: indexing into it throws
and is caught. -/
structure RegistryDoc where
  latest : String
  versions : Option (List (String × Option String))
  deriving Repr, DecidableEq

/-- The pair returned by `fetchPackageInfo`. -/
structure PackageMeta where
  latest : String
  license : String
  deriving Repr, DecidableEq

/-- JavaScript truthiness of a string, as consumed by
`... || 'Unknown'`: only the empty string is falsy. -/
def jsTruthyStr (s : String) : Bool := s ≠ ""

/-- Lines 31-40, `fetchPackageInfo(name, version)`: `net` is the outcome of
`axios.get` for this package (`none`: network failure or missing registry
entry, both of which throw and land in the `catch`).  On success the latest
tag is read from the document and the license from the entry of the declared
version, `?.license || 'Unknown'` turning an absent version, absent license
field, or falsy license into `"Unknown"`. -/
def fetchPackageInfo (net : Option RegistryDoc) (version : JVal) : PackageMeta :=
  match net with
  | none => ⟨"Unknown", "Unknown"⟩
  | some doc =>
    match doc.versions with
    | none => ⟨"Unknown", "Unknown"⟩
    | some vers =>
      let license :=
        match lookupEntry vers (jsToKeyString version) with
        | some (some l) => if jsTruthyStr l then l else "Unknown"
        | some none => "Unknown"
        | none => "Unknown"
      ⟨doc.latest, license⟩

/-- The parsed contents of `.dep-audit.json` as `fs.readJson` returns them:
no shape validation happens, so either array may be absent (`none`). -/
structure ConfigJson where
  ignored : Option (List String)
  allowedLicenses : Option (List String)
  deriving Repr, DecidableEq

/-- The default object built in the `catch` branch of `loadConfig`. -/
def defaultConfig : ConfigJson :=
  ⟨some [], some ["MIT", "Apache-2.0", "BSD-2-Clause", "BSD-3-Clause"]⟩

/-- Lines 16-22, `loadConfig()`: `file` is the outcome of
`fs.readJson(CONFIG_FILE)` (`none`: file absent, unreadable or unparseable,
which throws and lands in the `catch`). -/
def loadConfig (file : Option ConfigJson) : ConfigJson :=
  match file with
  | some c => c
  | none => defaultConfig

/-- One element pushed onto `results` in the scan loop (lines 68-76),
with the field names the source uses. -/
structure Verdict where
  name : String
  version : JVal
  latest : String
  isOutdated : Bool
  hasVulnerability : Option String
  license : String
  isLicenseAllowed : Bool
  deriving Repr, DecidableEq

/-- The JSON object serialized for one verdict: the keys in the order of the
object literal at lines 68-76. -/
def verdictToJson (v : Verdict) : List (String × JVal) :=
  [("name", JVal.jstr v.name),
   ("version", v.version),
   ("latest", JVal.jstr v.latest),
   ("isOutdated", JVal.jbool v.isOutdated),
   ("hasVulnerability",
     match v.hasVulnerability with
     | some s => JVal.jstr s
     | none => JVal.jnull),
   ("license", JVal.jstr v.license),
   ("isLicenseAllowed", JVal.jbool v.isLicenseAllowed)]

/-- A JavaScript runtime error escaping the scan loop. -/
inductive JsError where
  | typeError (msg : String)
  deriving Repr, DecidableEq

/-- The body of the `for` loop of `scanDependencies` (lines 60-77), iterated
over `Object.entries(dependencies)`.  `config.ignored.includes(name)` and
`config.allowedLicenses.includes(license)` throw a `TypeError` when the
loaded config lacks the respective array.  `net` maps a package name to its
registry outcome; `vulns` is the name-to-severity view of the
`npm audit --json` vulnerabilities object consumed at line 65. -/
def scanLoop (net : String → Option RegistryDoc) (config : ConfigJson)
    (vulns : List (String × String)) :
    List (String × JVal) → Except JsError (List Verdict)
  | [] => .ok []
  | (name, version) :: rest =>
    match config.ignored with
    | none => .error (.typeError "config.ignored is undefined")
    | some ign =>
      if ign.contains name then
        scanLoop net config vulns rest
      else
        let meta := fetchPackageInfo (net name) version
        let isOutdated := (!(version == JVal.jstr meta.latest)) && (meta.latest != "Unknown")
        let hasVulnerability := lookupEntry vulns name
        match config.allowedLicenses with
        | none => .error (.typeError "config.allowedLicenses is undefined")
        | some allowed =>
          let isLicenseAllowed := allowed.contains meta.license || (meta.license == "Unknown")
          (scanLoop net config vulns rest).map
            fun vs =>
              ⟨name, version, meta.latest, isOutdated, hasVulnerability,
               meta.license, isLicenseAllowed⟩ :: vs

/-- Lines 53-79, `scanDependencies()` up to the report write: merge the two
declaration groups, load the config, and run the classification loop.  The
returned list is exactly the `results` array written to the report file. -/
def scanDependencies (deps devDeps : DepsGroup) (configFile : Option ConfigJson)
    (net : String → Option RegistryDoc) (vulns : List (String × String)) :
    Except JsError (List Verdict) :=
  scanLoop net (loadConfig configFile) vulns (mergedDependencies deps devDeps)

/-- The verdict the loop body computes for one non-ignored declaration,
lifted out of the loop for the order-preservation statement. -/
def classifyOne (net : String → Option RegistryDoc) (vulns : List (String × String))
    (allowed : List String) (d : String × JVal) : Verdict :=
  let meta := fetchPackageInfo (net d.1) d.2
  { name := d.1
    version := d.2
    latest := meta.latest
    isOutdated := (!(d.2 == JVal.jstr meta.latest)) && (meta.latest != "Unknown")
    hasVulnerability := lookupEntry vulns d.1
    license := meta.license
    isLicenseAllowed := allowed.contains meta.license || (meta.license == "Unknown") }

/-- The options object `commander` passes to `updateConfig`. -/
structure ConfigOptions where
  ignore : Option String
  addLicense : Option String
  deriving Repr, DecidableEq

/-- JavaScript truthiness of an optional string option, as tested by
`if (options.ignore)` and `if (options.addLicense)`: an absent option
(`undefined`) and the empty string are both falsy. -/
def truthyOption : Option String → Option String
  | some s => if jsTruthyStr s then some s else none
  | none => none

/-- Lines 125-139, `updateConfig(options)`: load the config, and for each
option that is truthy (present and not the empty string) push its value onto
the respective array (`push` on an absent array throws a `TypeError`); a
falsy option is skipped.  Returns the config handed to `saveConfig`. -/
def updateConfig (opts : ConfigOptions) (configFile : Option ConfigJson) :
    Except JsError ConfigJson :=
  let config := loadConfig configFile
  match truthyOption opts.ignore with
  | some n =>
    match config.ignored with
    | none => .error (.typeError "config.ignored is undefined")
    | some l =>
      let config := { config with ignored := some (l ++ [n]) }
      match truthyOption opts.addLicense with
      | some lic =>
        match config.allowedLicenses with
        | none => .error (.typeError "config.allowedLicenses is undefined")
        | some al => .ok { config with allowedLicenses := some (al ++ [lic]) }
      | none => .ok config
  | none =>
    match truthyOption opts.addLicense with
    | some lic =>
      match config.allowedLicenses with
      | none => .error (.typeError "config.allowedLicenses is undefined")
      | some al => .ok { config with allowedLicenses := some (al ++ [lic]) }
    | none => .ok config

/-- Modelled from the spec, §3: the DependencyVerdict field names the report
file is claimed to contain, in the order the data model lists them. -/
def specVerdictFieldNames : List String :=
  ["name", "declaredVersion", "latestVersion", "isOutdated",
   "vulnerabilitySeverity", "license", "isLicenseAllowed"]

theorem scanLoop_eq (net : String → Option RegistryDoc) (config : ConfigJson)
    (vulns : List (String × String)) (ign allowed : List String)
    (h1 : config.ignored = some ign) (h2 : config.allowedLicenses = some allowed)
    (l : List (String × JVal)) :
    scanLoop net config vulns l =
      .ok ((l.filter fun d => !ign.contains d.1).map (classifyOne net vulns allowed)) := by
  induction l with
  | nil => simp [scanLoop]
  | cons d l ih =>
    obtain ⟨name, version⟩ := d
    simp only [scanLoop, h1, h2]
    by_cases hmem : name ∈ ign
    · simp [hmem, List.filter_cons, ih]
    · rw [ih, List.filter_cons]
      have hc : (!ign.contains (name, version).1) = true := by simpa using hmem
      have hc2 : ¬ (ign.contains name = true) := by simpa using hmem
      rw [if_pos hc, List.map_cons, if_neg hc2]
      rfl

theorem mem_scanDependencies (deps devDeps : DepsGroup) (configFile : Option ConfigJson)
    (net : String → Option RegistryDoc) (vulns : List (String × String))
    (ign allowed : List String) (vs : List Verdict) (v : Verdict)
    (h1 : (loadConfig configFile).ignored = some ign)
    (h2 : (loadConfig configFile).allowedLicenses = some allowed)
    (h : scanDependencies deps devDeps configFile net vulns = .ok vs)
    (hv : v ∈ vs) :
    ∃ d ∈ mergedDependencies deps devDeps,
      d.1 ∉ ign ∧ v = classifyOne net vulns allowed d := by
  rw [scanDependencies,
    scanLoop_eq net (loadConfig configFile) vulns ign allowed h1 h2] at h
  cases h
  obtain ⟨d, hd, rfl⟩ := List.mem_map.mp hv
  have hdf := List.mem_filter.mp hd
  exact ⟨d, hdf.1, by simpa using hdf.2, rfl⟩

/-- Concrete registry oracle used by the concrete scans below: only `lodash`
resolves, with latest tag `4.17.21` and an `MIT`-licensed `4.17.0` entry. -/
def sampleNet : String → Option RegistryDoc := fun n =>
  if n = "lodash" then some ⟨"4.17.21", some [("4.17.0", some "MIT")]⟩ else none

/-- The verdict the scan produces for `lodash@4.17.0` under `sampleNet`,
the default config and no vulnerabilities. -/
def sampleVerdict : Verdict :=
  ⟨"lodash", .jstr "4.17.0", "4.17.21", true, none, "MIT", true⟩

/-- C1: for every verdict the scan produces, `isOutdated` is true iff the
fetched latest version differs from the declared version and the latest
version is not `"Unknown"`; in particular it is false when the latest
equals the declared version or is `"Unknown"`. -/
theorem isOutdated_iff_latest_differs (deps devDeps : DepsGroup)
    (configFile : Option ConfigJson) (net : String → Option RegistryDoc)
    (vulns : List (String × String)) (ign allowed : List String)
    (vs : List Verdict) (v : Verdict)
    (h1 : (loadConfig configFile).ignored = some ign)
    (h2 : (loadConfig configFile).allowedLicenses = some allowed)
    (h : scanDependencies deps devDeps configFile net vulns = .ok vs)
    (hv : v ∈ vs) :
    v.isOutdated = true ↔
      (v.version ≠ JVal.jstr v.latest ∧ v.latest ≠ "Unknown") := by
  obtain ⟨d, _, _, rfl⟩ :=
    mem_scanDependencies deps devDeps configFile net vulns ign allowed vs v h1 h2 h hv
  simp [classifyOne]

theorem isOutdated_iff_latest_differs_witness :
    sampleVerdict.isOutdated = true ↔
      (sampleVerdict.version ≠ JVal.jstr sampleVerdict.latest ∧
        sampleVerdict.latest ≠ "Unknown") :=
  isOutdated_iff_latest_differs (.obj [("lodash", .jstr "4.17.0")]) (.prim .jnull)
    none sampleNet [] [] ["MIT", "Apache-2.0", "BSD-2-Clause", "BSD-3-Clause"]
    [sampleVerdict] sampleVerdict rfl rfl rfl (by decide)

/-- C2: for every verdict the scan produces, `isLicenseAllowed` is true iff
the resolved license is in the config's allowed-license list or the license
is `"Unknown"`; a verdict with license `"Unknown"` is always allowed. -/
theorem isLicenseAllowed_iff (deps devDeps : DepsGroup)
    (configFile : Option ConfigJson) (net : String → Option RegistryDoc)
    (vulns : List (String × String)) (ign allowed : List String)
    (vs : List Verdict) (v : Verdict)
    (h1 : (loadConfig configFile).ignored = some ign)
    (h2 : (loadConfig configFile).allowedLicenses = some allowed)
    (h : scanDependencies deps devDeps configFile net vulns = .ok vs)
    (hv : v ∈ vs) :
    v.isLicenseAllowed = true ↔ (v.license ∈ allowed ∨ v.license = "Unknown") := by
  obtain ⟨d, _, _, rfl⟩ :=
    mem_scanDependencies deps devDeps configFile net vulns ign allowed vs v h1 h2 h hv
  simp [classifyOne]

theorem isLicenseAllowed_iff_witness :
    sampleVerdict.isLicenseAllowed = true ↔
      (sampleVerdict.license ∈ ["MIT", "Apache-2.0", "BSD-2-Clause", "BSD-3-Clause"] ∨
        sampleVerdict.license = "Unknown") :=
  isLicenseAllowed_iff (.obj [("lodash", .jstr "4.17.0")]) (.prim .jnull)
    none sampleNet [] [] ["MIT", "Apache-2.0", "BSD-2-Clause", "BSD-3-Clause"]
    [sampleVerdict] sampleVerdict rfl rfl rfl (by decide)

/-- C3: the scan never emits a verdict whose name is in the config's ignored
list: every ignored declaration contributes nothing to the output. -/
theorem ignored_never_emitted (deps devDeps : DepsGroup)
    (configFile : Option ConfigJson) (net : String → Option RegistryDoc)
    (vulns : List (String × String)) (ign allowed : List String)
    (vs : List Verdict) (v : Verdict)
    (h1 : (loadConfig configFile).ignored = some ign)
    (h2 : (loadConfig configFile).allowedLicenses = some allowed)
    (h : scanDependencies deps devDeps configFile net vulns = .ok vs)
    (hv : v ∈ vs) :
    v.name ∉ ign := by
  obtain ⟨d, _, hnotmem, rfl⟩ :=
    mem_scanDependencies deps devDeps configFile net vulns ign allowed vs v h1 h2 h hv
  exact hnotmem

theorem ignored_never_emitted_witness : sampleVerdict.name ∉ ([] : List String) :=
  ignored_never_emitted (.obj [("lodash", .jstr "4.17.0")]) (.prim .jnull)
    none sampleNet [] [] ["MIT", "Apache-2.0", "BSD-2-Clause", "BSD-3-Clause"]
    [sampleVerdict] sampleVerdict rfl rfl rfl (by decide)

/-- C5 counterexample: a registry document whose versions map lacks the
declared version.  The fetch returns the real latest tag with license
`"Unknown"`, not the pair with both fields `"Unknown"` the claim states. -/
theorem fetch_version_missing_cex :
    fetchPackageInfo (some ⟨"2.0.0", some []⟩) (JVal.jstr "1.0.0") =
      ⟨"2.0.0", "Unknown"⟩ ∧
    fetchPackageInfo (some ⟨"2.0.0", some []⟩) (JVal.jstr "1.0.0") ≠
      ⟨"Unknown", "Unknown"⟩ :=
  ⟨rfl, by decide⟩

/-- C5 amended: the fetch never raises; a failed network call or missing
registry entry (and likewise a document without a versions map) yields both
fields `"Unknown"`, while a declared version absent from the versions map
yields license `"Unknown"` but keeps the document's latest tag. -/
theorem fetch_failure_unknown (doc : RegistryDoc)
    (vers : List (String × Option String)) (version : JVal)
    (hvers : doc.versions = some vers)
    (hmiss : lookupEntry vers (jsToKeyString version) = none) :
    fetchPackageInfo none version = ⟨"Unknown", "Unknown"⟩ ∧
    fetchPackageInfo (some ⟨doc.latest, none⟩) version = ⟨"Unknown", "Unknown"⟩ ∧
    fetchPackageInfo (some doc) version = ⟨doc.latest, "Unknown"⟩ := by
  refine ⟨rfl, rfl, ?_⟩
  rw [fetchPackageInfo, hvers]
  simp [hmiss]

theorem fetch_failure_unknown_witness :
    fetchPackageInfo none (JVal.jstr "1.0.0") = ⟨"Unknown", "Unknown"⟩ ∧
    fetchPackageInfo (some ⟨"2.0.0", none⟩) (JVal.jstr "1.0.0") =
      ⟨"Unknown", "Unknown"⟩ ∧
    fetchPackageInfo (some ⟨"2.0.0", some []⟩) (JVal.jstr "1.0.0") =
      ⟨"2.0.0", "Unknown"⟩ :=
  fetch_failure_unknown ⟨"2.0.0", some []⟩ [] (JVal.jstr "1.0.0") rfl rfl

/-- C6 counterexample: the report written for a concrete scan serializes each
verdict with keys `name, version, latest, isOutdated, hasVulnerability,
license, isLicenseAllowed`, which differ from the §3 field names
`name, declaredVersion, latestVersion, isOutdated, vulnerabilitySeverity,
license, isLicenseAllowed`. -/
theorem verdict_field_names_cex :
    (scanDependencies (.obj [("lodash", .jstr "4.17.0")]) (.prim .jnull)
        none sampleNet []).map (fun vs => vs.map fun v => (verdictToJson v).map Prod.fst) =
      .ok [["name", "version", "latest", "isOutdated", "hasVulnerability",
        "license", "isLicenseAllowed"]] ∧
    ["name", "version", "latest", "isOutdated", "hasVulnerability",
      "license", "isLicenseAllowed"] ≠ specVerdictFieldNames :=
  ⟨rfl, by decide⟩

/-- C6 amended: every verdict written to the report is a record with exactly
the seven fields `name, version, latest, isOutdated, hasVulnerability,
license, isLicenseAllowed` — the §3 data model under the source's own field
names (`declaredVersion` appears as `version`, `latestVersion` as `latest`,
`vulnerabilitySeverity` as `hasVulnerability`). -/
theorem verdict_field_names (deps devDeps : DepsGroup)
    (configFile : Option ConfigJson) (net : String → Option RegistryDoc)
    (vulns : List (String × String)) (vs : List Verdict) (v : Verdict)
    (_h : scanDependencies deps devDeps configFile net vulns = .ok vs)
    (_hv : v ∈ vs) :
    (verdictToJson v).map Prod.fst =
      ["name", "version", "latest", "isOutdated", "hasVulnerability",
       "license", "isLicenseAllowed"] :=
  rfl

theorem verdict_field_names_witness :
    (verdictToJson sampleVerdict).map Prod.fst =
      ["name", "version", "latest", "isOutdated", "hasVulnerability",
       "license", "isLicenseAllowed"] :=
  verdict_field_names (.obj [("lodash", .jstr "4.17.0")]) (.prim .jnull)
    none sampleNet [] [sampleVerdict] sampleVerdict rfl (by decide)

/-- C7: for every verdict the scan produces, the vulnerability field is the
severity recorded for that name in the vulnerability mapping when an entry
is present, and null (`none`) when no entry is present. -/
theorem vulnerability_severity_eq (deps devDeps : DepsGroup)
    (configFile : Option ConfigJson) (net : String → Option RegistryDoc)
    (vulns : List (String × String)) (ign allowed : List String)
    (vs : List Verdict) (v : Verdict)
    (h1 : (loadConfig configFile).ignored = some ign)
    (h2 : (loadConfig configFile).allowedLicenses = some allowed)
    (h : scanDependencies deps devDeps configFile net vulns = .ok vs)
    (hv : v ∈ vs) :
    v.hasVulnerability = lookupEntry vulns v.name := by
  obtain ⟨d, _, _, rfl⟩ :=
    mem_scanDependencies deps devDeps configFile net vulns ign allowed vs v h1 h2 h hv
  rfl

theorem vulnerability_severity_eq_witness :
    sampleVerdict.hasVulnerability = lookupEntry [] sampleVerdict.name :=
  vulnerability_severity_eq (.obj [("lodash", .jstr "4.17.0")]) (.prim .jnull)
    none sampleNet [] [] ["MIT", "Apache-2.0", "BSD-2-Clause", "BSD-3-Clause"]
    [sampleVerdict] sampleVerdict rfl rfl rfl (by decide)

/-- C8: config load never raises; it returns the persisted config verbatim
when one is readable and otherwise the default config with an empty ignored
list and exactly the four named allowed licenses. -/
theorem loadConfig_fail_soft :
    (∀ c, loadConfig (some c) = c) ∧
    loadConfig none =
      ⟨some [], some ["MIT", "Apache-2.0", "BSD-2-Clause", "BSD-3-Clause"]⟩ :=
  ⟨fun _ => rfl, rfl⟩

/-- C9 counterexample: a dependencies group that is not name/version pairs
(the number 42).  The scan does not fail with any error: the malformed group
is absorbed by object spread and the scan succeeds on the remaining
declaration, so no InvalidInputError exists or is raised. -/
theorem scan_malformed_input_cex :
    scanDependencies (.prim (.jnum 42)) (.obj [("left-pad", .jstr "1.0.0")])
        none sampleNet [] =
      .ok [⟨"left-pad", .jstr "1.0.0", "Unknown", false, none, "Unknown", true⟩] :=
  rfl

/-- C9 amended: the scan loop never fails for any declaration groups,
well-formed or malformed, as long as the loaded config carries its two
arrays: fetch failures degrade to `"Unknown"` and malformed groups are
absorbed by object spread; there is no InvalidInputError in the code. -/
theorem scan_never_fails (deps devDeps : DepsGroup)
    (configFile : Option ConfigJson) (net : String → Option RegistryDoc)
    (vulns : List (String × String)) (ign allowed : List String)
    (h1 : (loadConfig configFile).ignored = some ign)
    (h2 : (loadConfig configFile).allowedLicenses = some allowed) :
    ∃ vs, scanDependencies deps devDeps configFile net vulns = .ok vs :=
  ⟨_, scanLoop_eq net (loadConfig configFile) vulns ign allowed h1 h2
    (mergedDependencies deps devDeps)⟩

theorem scan_never_fails_witness :
    ∃ vs, scanDependencies (.prim (.jnum 42)) (.obj [("left-pad", .jstr "1.0.0")])
      none sampleNet [] = .ok vs :=
  scan_never_fails (.prim (.jnum 42)) (.obj [("left-pad", .jstr "1.0.0")])
    none sampleNet [] [] ["MIT", "Apache-2.0", "BSD-2-Clause", "BSD-3-Clause"] rfl rfl

/-- C10: config load does no shape validation — any parsed file is returned
verbatim — and a parseable config lacking its arrays flows into the scan's
ignore check and the config update's push, which then fail with a
TypeError (the update fails for any truthy, i.e. non-empty, option value;
a falsy option is skipped before the push is reached). -/
theorem loadConfig_no_validation (c : ConfigJson) (name lic : String)
    (version : JVal) (net : String → Option RegistryDoc)
    (vulns : List (String × String))
    (hci : c.ignored = none) (hca : c.allowedLicenses = none)
    (hn : jsTruthyStr name = true) (hl : jsTruthyStr lic = true) :
    (∀ c2, loadConfig (some c2) = c2) ∧
    scanDependencies (.obj [(name, version)]) (.prim .jnull) (some c) net vulns =
      .error (.typeError "config.ignored is undefined") ∧
    updateConfig ⟨some name, none⟩ (some c) =
      .error (.typeError "config.ignored is undefined") ∧
    updateConfig ⟨none, some lic⟩ (some c) =
      .error (.typeError "config.allowedLicenses is undefined") := by
  refine ⟨fun _ => rfl, ?_, ?_, ?_⟩
  · show scanLoop net c vulns [(name, version)] = _
    rw [scanLoop, hci]
  · simp [updateConfig, loadConfig, truthyOption, hn, hci]
  · simp [updateConfig, loadConfig, truthyOption, hl, hca]

theorem loadConfig_no_validation_witness :
    (∀ c2, loadConfig (some c2) = c2) ∧
    scanDependencies (.obj [("lodash", .jstr "4.17.0")]) (.prim .jnull)
        (some ⟨none, none⟩) sampleNet [] =
      .error (.typeError "config.ignored is undefined") ∧
    updateConfig ⟨some "lodash", none⟩ (some ⟨none, none⟩) =
      .error (.typeError "config.ignored is undefined") ∧
    updateConfig ⟨none, some "MIT"⟩ (some ⟨none, none⟩) =
      .error (.typeError "config.allowedLicenses is undefined") :=
  loadConfig_no_validation ⟨none, none⟩ "lodash" "MIT" (.jstr "4.17.0")
    sampleNet [] rfl rfl (by decide) (by decide)

end DepAudit
